import Mathlib

/-!
Verification development for the Netflix/TMDB crawler repository.

The Python sources embedded here:
- `crawler/scripts/cache_manager.py` (`CacheManager`)
- `crawler/scripts/tmdb_client.py` (`TMDBClient.make_request`, `TMDBClient.__init__`)
- `crawler/scripts/netflix_crawler.py` (`NetflixDataCrawler.__init__`,
  `crawl_movie_details`, `save_movie_batch`, `crawl_daily_netflix_data`)

Machine integers do not occur (Python ints are unbounded); word-level
arithmetic inside MD5 is modelled with `Nat` and explicit `% 2^32`.
Real time, file I/O and threads are modelled by explicit parameters:
clock values are `Nat` arguments, the cache directory is an association
list from paths to (mtime, content), and the completion order of the
thread pool's futures is an explicit list parameter constrained to be a
permutation of the submitted ids.
-/

/-- JSON-compatible values as they occur in this codebase (responses,
cached payloads, request parameters).  Only the constructors the claims
exercise are included; payload bodies the code never inspects are
represented by these opaque values. -/
inductive JVal where
  | jnull : JVal
  | jint : Int → JVal
  | jstr : String → JVal
  deriving DecidableEq, Repr

/-! ## MD5 (used by `CacheManager._get_cache_key` via `hashlib.md5`) -/

/-- 2^32, the word modulus of MD5. -/
def m32 : Nat := 4294967296

/-- Left-rotation of a 32-bit word held in a `Nat`. -/
def rotl32 (x n : Nat) : Nat :=
  ((x <<< n) % m32) ||| (x >>> (32 - n))

/-- Bitwise complement of a 32-bit word held in a `Nat`. -/
def not32 (x : Nat) : Nat := x ^^^ 4294967295

/-- The 64 MD5 round constants `K[i] = floor(abs(sin(i+1)) * 2^32)`. -/
def md5K : List Nat :=
  [0xd76aa478, 0xe8c7b756, 0x242070db, 0xc1bdceee,
   0xf57c0faf, 0x4787c62a, 0xa8304613, 0xfd469501,
   0x698098d8, 0x8b44f7af, 0xffff5bb1, 0x895cd7be,
   0x6b901122, 0xfd987193, 0xa679438e, 0x49b40821,
   0xf61e2562, 0xc040b340, 0x265e5a51, 0xe9b6c7aa,
   0xd62f105d, 0x02441453, 0xd8a1e681, 0xe7d3fbc8,
   0x21e1cde6, 0xc33707d6, 0xf4d50d87, 0x455a14ed,
   0xa9e3e905, 0xfcefa3f8, 0x676f02d9, 0x8d2a4c8a,
   0xfffa3942, 0x8771f681, 0x6d9d6122, 0xfde5380c,
   0xa4beea44, 0x4bdecfa9, 0xf6bb4b60, 0xbebfbc70,
   0x289b7ec6, 0xeaa127fa, 0xd4ef3085, 0x04881d05,
   0xd9d4d039, 0xe6db99e5, 0x1fa27cf8, 0xc4ac5665,
   0xf4292244, 0x432aff97, 0xab9423a7, 0xfc93a039,
   0x655b59c3, 0x8f0ccc92, 0xffeff47d, 0x85845dd1,
   0x6fa87e4f, 0xfe2ce6e0, 0xa3014314, 0x4e0811a1,
   0xf7537e82, 0xbd3af235, 0x2ad7d2bb, 0xeb86d391]

/-- The per-round left-rotation amounts of MD5. -/
def md5S : List Nat :=
  [7, 12, 17, 22, 7, 12, 17, 22, 7, 12, 17, 22, 7, 12, 17, 22,
   5, 9, 14, 20, 5, 9, 14, 20, 5, 9, 14, 20, 5, 9, 14, 20,
   4, 11, 16, 23, 4, 11, 16, 23, 4, 11, 16, 23, 4, 11, 16, 23,
   6, 10, 15, 21, 6, 10, 15, 21, 6, 10, 15, 21, 6, 10, 15, 21]

/-- The MD5 nonlinear functions F, G, H, I selected by the round index. -/
def md5F (i b c d : Nat) : Nat :=
  if i < 16 then (b &&& c) ||| (not32 b &&& d)
  else if i < 32 then (d &&& b) ||| (not32 d &&& c)
  else if i < 48 then b ^^^ c ^^^ d
  else c ^^^ (b ||| not32 d)

/-- The MD5 message-word index `g` for round `i`. -/
def md5G (i : Nat) : Nat :=
  if i < 16 then i
  else if i < 32 then (5 * i + 1) % 16
  else if i < 48 then (3 * i + 5) % 16
  else (7 * i) % 16

/-- One MD5 operation on the state `(a, b, c, d)`. -/
def md5Step (M : Nat → Nat) (st : Nat × Nat × Nat × Nat) (i : Nat) :
    Nat × Nat × Nat × Nat :=
  match st with
  | (a, b, c, d) =>
    let f := (md5F i b c d + a + md5K.getD i 0 + M (md5G i)) % m32
    (d, (b + rotl32 f (md5S.getD i 0)) % m32, b, c)

/-- Process one 64-byte block (given as a byte list) through the 64 MD5
operations and add the result to the incoming state. -/
def md5Block (st : Nat × Nat × Nat × Nat) (block : List Nat) :
    Nat × Nat × Nat × Nat :=
  let M : Nat → Nat := fun g =>
    block.getD (4 * g) 0 + 256 * block.getD (4 * g + 1) 0 +
      65536 * block.getD (4 * g + 2) 0 + 16777216 * block.getD (4 * g + 3) 0
  match st, (List.range 64).foldl (md5Step M) st with
  | (a0, b0, c0, d0), (a, b, c, d) =>
    ((a0 + a) % m32, (b0 + b) % m32, (c0 + c) % m32, (d0 + d) % m32)

/-- The low 8 bytes of a `Nat`, little-endian (MD5 length field). -/
def le8 (n : Nat) : List Nat :=
  [n % 256, n / 256 % 256, n / 65536 % 256, n / 16777216 % 256,
   n / 4294967296 % 256, n / 1099511627776 % 256,
   n / 281474976710656 % 256, n / 72057594037927936 % 256]

/-- MD5 padding: append `0x80`, zero-pad to 56 mod 64, then the 64-bit
little-endian bit length. -/
def md5Pad (msg : List Nat) : List Nat :=
  let z := (56 + 64 - (msg.length + 1) % 64) % 64
  msg ++ [128] ++ List.replicate z 0 ++ le8 (8 * msg.length % 2 ^ 64)

/-- Split a byte list into consecutive 64-byte chunks (fuel-driven so the
definition is structural and kernel-reducible). -/
def chunks64 : Nat → List Nat → List (List Nat)
  | 0, _ => []
  | _, [] => []
  | fuel + 1, l => l.take 64 :: chunks64 fuel (l.drop 64)

/-- The four 32-bit state words of the MD5 digest of a byte string. -/
def md5Words (msg : List Nat) : Nat × Nat × Nat × Nat :=
  (chunks64 (md5Pad msg).length (md5Pad msg)).foldl md5Block
    (0x67452301, 0xefcdab89, 0x98badcfe, 0x10325476)

/-- A 32-bit word as 4 little-endian bytes. -/
def wordLE (w : Nat) : List Nat :=
  [w % 256, w / 256 % 256, w / 65536 % 256, w / 16777216 % 256]

/-- The 16-byte MD5 digest of a byte string. -/
def md5Bytes (msg : List Nat) : List Nat :=
  match md5Words msg with
  | (a, b, c, d) => wordLE a ++ wordLE b ++ wordLE c ++ wordLE d

/-- Lower-case hexadecimal digit. -/
def hexDigit (n : Nat) : Char :=
  if n < 10 then Char.ofNat (48 + n) else Char.ofNat (87 + n)

/-- Two hex characters of one byte. -/
def hexByte (b : Nat) : List Char := [hexDigit (b / 16), hexDigit (b % 16)]

/-- `hashlib.md5(...).hexdigest()`: the 32-character lower-case hex digest. -/
def md5Hex (msg : List Nat) : String := String.mk ((md5Bytes msg).flatMap hexByte)

/-- UTF-8 encoding of one character (Python `str.encode()`). -/
def utf8Char (c : Char) : List Nat :=
  let n := c.toNat
  if n < 128 then [n]
  else if n < 2048 then [192 + n / 64, 128 + n % 64]
  else if n < 65536 then [224 + n / 4096, 128 + n / 64 % 64, 128 + n % 64]
  else [240 + n / 262144, 128 + n / 4096 % 64, 128 + n / 64 % 64, 128 + n % 64]

/-- UTF-8 byte encoding of a string (Python `str.encode()`). -/
def strBytes (s : String) : List Nat := s.data.flatMap utf8Char

/-! ## JSON serialization (`json.dumps(params, sort_keys=True)`)

Python's `json.dumps` with default arguments (`ensure_ascii=True`,
separators `", "` and `": "`).  Non-BMP characters are escaped by CPython
with surrogate pairs; the model covers code points up to `0xFFFF`, which
includes every string this codebase passes as a request parameter. -/

/-- Four lower-case hex digits of `n % 65536` (the `\uXXXX` escape body). -/
def hex4 (n : Nat) : String :=
  String.mk [hexDigit (n / 4096 % 16), hexDigit (n / 256 % 16),
    hexDigit (n / 16 % 16), hexDigit (n % 16)]

/-- JSON escape of one character, as CPython's `ensure_ascii` encoder
produces it: printable ASCII is literal, `"` and `\` are backslashed, the
named control escapes are used, everything else becomes `\uXXXX`. -/
def jsonEscapeChar (c : Char) : String :=
  if c = '"' then "\\\""
  else if c = '\\' then "\\\\"
  else if c = '\n' then "\\n"
  else if c = '\t' then "\\t"
  else if c = '\r' then "\\r"
  else if c.toNat = 8 then "\\b"
  else if c.toNat = 12 then "\\f"
  else if c.toNat < 32 ∨ 126 < c.toNat then "\\u" ++ hex4 c.toNat
  else String.singleton c

/-- JSON serialization of a string literal. -/
def jsonStr (s : String) : String :=
  "\"" ++ String.join (s.data.map jsonEscapeChar) ++ "\""

/-- JSON serialization of a value. -/
def jsonVal : JVal → String
  | .jnull => "null"
  | .jint n => toString n
  | .jstr s => jsonStr s

/-- JSON serialization of an object from a key-value list, in list order,
with `json.dumps`'s default separators. -/
def jsonObj (entries : List (String × JVal)) : String :=
  "\x7b" ++
    String.intercalate ", "
      (entries.map (fun e => jsonStr e.1 ++ ": " ++ jsonVal e.2)) ++
    "\x7d"

/-- Key order used by `sort_keys=True`: compare the keys. -/
def keyLE (a b : String × JVal) : Prop := a.1 ≤ b.1

instance : DecidableRel keyLE := fun a b => inferInstanceAs (Decidable (a.1 ≤ b.1))

instance : IsTotal (String × JVal) keyLE := ⟨fun a b => le_total a.1 b.1⟩

instance : IsTrans (String × JVal) keyLE := ⟨fun _ _ _ h h' => le_trans h h'⟩

/-! ## `cache_manager.py` — `CacheManager`

A Python `dict` of request parameters is embedded as an association list
`List (String × JVal)` in insertion order; dict keys are unique by
construction, which the theorems carry as a `Nodup` hypothesis. -/

namespace CacheManager

/-- `_get_cache_key` (cache_manager.py:29-44): serialize the parameters
with sorted keys (`json.dumps(params, sort_keys=True)`, with `"{}"` for a
falsy/absent parameter dict) and MD5-hash `f"{endpoint}:{param_str}"`.
Python code point: `hashlib.md5(f"{endpoint}:{param_str}".encode()).hexdigest()`. -/
def get_cache_key (endpoint : String) (params : List (String × JVal)) : String :=
  let param_str := if params = [] then "\x7b\x7d"
                   else jsonObj (params.insertionSort keyLE)
  md5Hex (strBytes (endpoint ++ ":" ++ param_str))

/-- The relevant slice of the configuration read by `CacheManager.__init__`. -/
structure Config where
  cache_dir : String
  use_cache : Bool
  cache_ttl : Nat
  deriving DecidableEq, Repr

/-- The cache directory on disk: an association list from file paths to
(mtime, JSON content); a write conses the new version, a read takes the
first (most recent) entry for the path. -/
def FS := List (String × Nat × JVal)

/-- First entry for a path, i.e. the current file at that path. -/
def fsLookup (fs : FS) (p : String) : Option (Nat × JVal) :=
  (List.find? (fun e => e.1 = p) fs).map (fun e => e.2)

/-- The cache file path `os.path.join(self.cache_dir, f"{cache_key}.json")`. -/
def cachePath (cfg : Config) (endpoint : String) (params : List (String × JVal)) :
    String :=
  cfg.cache_dir ++ "/" ++ get_cache_key endpoint params ++ ".json"

/-- `CacheManager.get` (cache_manager.py:46-75): `None` when caching is
disabled, when the cache file does not exist, or when
`time.time() - getmtime > cache_ttl`; the file's JSON content otherwise.
The successful-read path is modelled (a file the model wrote parses back);
the read-failure path also returns `None` in the source, so `get` is total
and never raises on a missing or expired entry. -/
def get (cfg : Config) (fs : FS) (now : Nat) (endpoint : String)
    (params : List (String × JVal)) : Option JVal :=
  if cfg.use_cache = false then none
  else
    match fsLookup fs (cachePath cfg endpoint params) with
    | none => none
    | some (cache_time, data) =>
        if now - cache_time ≤ cfg.cache_ttl then some data else none

/-- `CacheManager.set` (cache_manager.py:77-102): `False` without writing
when caching is disabled or `data is None`; otherwise write (overwrite)
the cache file, stamping its mtime with the current time, and return
`True`.  (The write-failure path logs and returns `False`; the model's
file system write always succeeds.) -/
def set (cfg : Config) (fs : FS) (now : Nat) (endpoint : String)
    (params : List (String × JVal)) (data : Option JVal) : Bool × FS :=
  if cfg.use_cache = false then (false, fs)
  else
    match data with
    | none => (false, fs)
    | some d => (true, (cachePath cfg endpoint params, now, d) :: fs)

end CacheManager

/-! ## `tmdb_client.py` — `TMDBClient.make_request` (lines 63-127)

The remote side (`requests.get` plus `raise_for_status`) is an oracle
mapping the attempt number to what that attempt observes. -/

/-- What one remote attempt inside `make_request` observes:
`ok` — the request returned and `raise_for_status` passed;
`httpError s` — `raise_for_status` raised `HTTPError` with status `s`;
`reqError` — any other exception (`RequestException`, timeout, ...). -/
inductive RemoteResp where
  | ok : JVal → RemoteResp
  | httpError : Nat → RemoteResp
  | reqError : RemoteResp
  deriving DecidableEq, Repr

/-- The non-retryable client-error statuses of tmdb_client.py line 108. -/
def clientErrorCodes : List Nat := [400, 401, 403, 404]

/-- A response that the retry loop retries: any failure whose status is
not one of the four client-error codes. -/
def retryable : RemoteResp → Bool
  | .ok _ => false
  | .httpError s => decide (s ∉ clientErrorCodes)
  | .reqError => true

/-- The retry loop of `make_request` (`for attempt in range(self.max_retries + 1)`),
returning the result, the number of remote attempts performed, and the
list of backoff sleeps (`2 ** (attempt + 1)` seconds each) in order.
`fuel` only bounds the recursion; it starts at `max_retries + 1` and the
loop recurses only while `attempt < max_retries`, so it never runs out. -/
def retryLoop (oracle : Nat → RemoteResp) (max_retries : Nat) :
    Nat → Nat → Option JVal × Nat × List Nat
  | 0, _ => (none, 0, [])
  | fuel + 1, attempt =>
    match oracle attempt with
    | .ok d => (some d, 1, [])
    | .httpError s =>
        if s ∈ clientErrorCodes then
          (none, 1, [])
        else if attempt < max_retries then
          match retryLoop oracle max_retries fuel (attempt + 1) with
          | (r, k, sleeps) => (r, k + 1, 2 ^ (attempt + 1) :: sleeps)
        else (none, 1, [])
    | .reqError =>
        if attempt < max_retries then
          match retryLoop oracle max_retries fuel (attempt + 1) with
          | (r, k, sleeps) => (r, k + 1, 2 ^ (attempt + 1) :: sleeps)
        else (none, 1, [])

/-- `TMDBClient.make_request` (tmdb_client.py:63-127): consult the cache
first and return a hit immediately with no remote attempt; otherwise run
the retry loop.  (The rate-limit sleep and the cache write on success
are side effects not observed by these claims.) -/
def make_request (cached : Option JVal) (max_retries : Nat)
    (oracle : Nat → RemoteResp) : Option JVal × Nat × List Nat :=
  match cached with
  | some d => (some d, 0, [])
  | none => retryLoop oracle max_retries (max_retries + 1) 0

/-! ## CPython `set` iteration order (netflix_crawler.py line 312/348)

`crawl_daily_netflix_data` accumulates discovered ids in a Python `set`
and then selects `list(all_movie_ids)[:max_movies]`.  For a CPython set
of small non-negative integers, iteration yields the hash-table slots in
index order, where an element `x` (whose hash is `x` itself) lives in
slot `x mod 8` for tables of the initial size 8.  The model below is
exact for at most 4 distinct small integers whose residues mod 8 are
distinct (no probing, no table resize, as in every concrete input used
here); on collision it probes with the CPython recurrence
`j = (5*j + 1 + perturb) mod 8`, `perturb = perturb >> 5`. -/

/-- Open-addressing insert into an 8-slot table (fuel-bounded probe). -/
def pyProbeGo : Nat → Nat → Nat → Nat → List (Option Nat) → List (Option Nat)
  | 0, _, _, _, slots => slots
  | fuel + 1, j, perturb, x, slots =>
    match slots.getD j none with
    | none => slots.set j (some x)
    | some y =>
        if y = x then slots
        else pyProbeGo fuel ((5 * j + 1 + perturb) % 8) (perturb / 32) x slots

/-- `s.add(x)` on the modelled table. -/
def pySetAdd (slots : List (Option Nat)) (x : Nat) : List (Option Nat) :=
  pyProbeGo 64 (x % 8) x x slots

/-- The table holding the elements of `ids` inserted left to right. -/
def pySetOfList (ids : List Nat) : List (Option Nat) :=
  ids.foldl pySetAdd (List.replicate 8 none)

/-- `list(s)`: occupied slots in slot-index order. -/
def pySetToList (slots : List (Option Nat)) : List Nat :=
  slots.filterMap id

/-! ## `netflix_crawler.py` — worker (`crawl_movie_details`, lines 153-233) -/

/-- The record one worker builds for one movie.  Fields mirror the
`movie_data` dict (a `none` field is the dict's `None`); the
`crawl_timestamp` wall-clock string is not modelled.  `sources` is the
attribution list the orchestrator attaches on success in non-resume runs
(absent means the key was never added). -/
structure MovieData where
  movie_id : Nat
  details : Option JVal
  credits : Option JVal
  keywords : Option JVal
  videos : Option JVal
  reviews : Option JVal
  similar : Option JVal
  sources : Option (List String)
  deriving DecidableEq, Repr

/-- What the six `with_retry`-guarded sub-resource fetches of one worker
return; `none` is a fetch whose retries were exhausted (`with_retry`
returns `None`), and also covers a falsy (empty-dict) payload, since the
source guards each field with Python truthiness. -/
structure FetchResults where
  details : Option JVal
  credits : Option JVal
  keywords : Option JVal
  videos : Option JVal
  reviews : Option JVal
  similar : Option JVal
  deriving DecidableEq, Repr

/-- `crawl_movie_details` (netflix_crawler.py:153-233): return a cache hit
unchanged; otherwise fetch base details and return early — all other
fields still `None` — when they are missing; otherwise fill each remaining
field only when its own fetch succeeded.  (The cache write on success is a
side effect not observed by these claims.) -/
def crawl_movie_details (cached : Option MovieData) (movie_id : Nat)
    (f : FetchResults) : MovieData :=
  match cached with
  | some c => c
  | none =>
    let base : MovieData :=
      { movie_id := movie_id, details := none, credits := none,
        keywords := none, videos := none, reviews := none, similar := none,
        sources := none }
    match f.details with
    | none => base
    | some d =>
      { base with
        details := some d, credits := f.credits,
        keywords := f.keywords, videos := f.videos, reviews := f.reviews,
        similar := f.similar }

/-! ## `netflix_crawler.py` — orchestrator (`crawl_daily_netflix_data`, lines 256-428) -/

/-- What `future.result()` does for one submitted movie id:
return the worker's record, or raise. -/
inductive Outcome where
  | returned : MovieData → Outcome
  | raised : Outcome

/-- Files the run writes, tagged by their path-determining data: the
discovery summary, the consolidated dataset file (written first with the
header, later with the final results), one batch file per batch index,
and the failure list.  All paths also carry the run timestamp, constant
within a run and therefore omitted. -/
inductive FileWrite where
  | movieListSummary : Nat → FileWrite
  | datasetHeader : Nat → Option (List String) → FileWrite
  | datasetFinal : Nat → Nat → Nat → List Nat → FileWrite
  | batchFile : Nat → List MovieData → FileWrite
  | failedFile : List Nat → FileWrite
  deriving DecidableEq, Repr

/-- State of the result-draining loop (lines 366-400). -/
structure LoopState where
  detailed_movies : List MovieData
  failed_movies : List Nat
  batch_buffer : List MovieData
  batchWrites : List (Nat × List MovieData)
  deriving DecidableEq, Repr

/-- The loop state before the first completion. -/
def initLoopState : LoopState :=
  { detailed_movies := [], failed_movies := [], batch_buffer := [],
    batchWrites := [] }

/-- Lines 391-394: when the buffer holds `batch_size` records or the
`i`-th completion is the last (`i == len(selected_movies)`), call
`save_movie_batch(batch_buffer, timestamp, i // batch_size)` — which
writes nothing for an empty buffer — and clear the buffer. -/
def flushCheck (batch_size n i : Nat) (st : LoopState) : LoopState :=
  if batch_size ≤ st.batch_buffer.length ∨ i = n then
    let st' :=
      if st.batch_buffer = [] then st
      else { st with
              batchWrites := st.batchWrites ++ [(i / batch_size, st.batch_buffer)] }
    { st' with batch_buffer := [] }
  else st

/-- One iteration of the `as_completed` loop (lines 377-400) for the
`i`-th completed future (1-based), carrying the movie id `movie_id` and
outcome `out`.  A returned record with truthy `details` is appended to
the success list and the buffer (with source attribution attached when
the run is not a resume); otherwise the id is appended to the failure
list unless already there.  The flush check runs only when
`future.result()` did not raise (the exception handler `continue`s past
it). -/
def loopStep (batch_size n : Nat) (resume_given : Bool)
    (movie_sources : Nat → List String) (st : LoopState) (i : Nat)
    (movie_id : Nat) (out : Outcome) : LoopState :=
  match out with
  | .raised =>
      if movie_id ∈ st.failed_movies then st
      else { st with failed_movies := st.failed_movies ++ [movie_id] }
  | .returned md =>
      let st' :=
        if md.details.isSome then
          let md' := if resume_given then md
                     else { md with sources := some (movie_sources movie_id) }
          { st with
            detailed_movies := st.detailed_movies ++ [md'],
            batch_buffer := st.batch_buffer ++ [md'] }
        else
          if movie_id ∈ st.failed_movies then st
          else { st with failed_movies := st.failed_movies ++ [movie_id] }
      flushCheck batch_size n i st'

/-- The whole draining loop over the completion order. -/
def runLoop (batch_size n : Nat) (resume_given : Bool)
    (movie_sources : Nat → List String) (outcome : Nat → Outcome) :
    List Nat → Nat → LoopState → LoopState
  | [], _, st => st
  | movie_id :: rest, i, st =>
      runLoop batch_size n resume_given movie_sources outcome rest (i + 1)
        (loopStep batch_size n resume_given movie_sources st i movie_id
          (outcome movie_id))

/-- The `resume_from` situation of a run: no argument given; a path whose
file does not exist; a file whose load raises; or a loaded failure file
with its `failed_movie_ids` list. -/
inductive ResumeFile where
  | noResumeArg : ResumeFile
  | missing : ResumeFile
  | loadError : ResumeFile
  | loaded : List Nat → ResumeFile
  deriving DecidableEq, Repr

/-- One run's inputs: the resume situation, the source list (after the
enabled-source defaulting of lines 281-286), what each source's list
crawl surfaces (`sourceIds s` is the stream of `movie['id']` values of
source `s` in page order, empty for a source yielding nothing) and
whether it raises instead, the tunables, each worker's outcome, and the
order in which the pool's futures complete. -/
structure CrawlInputs where
  resume : ResumeFile
  sources : List String
  sourceIds : String → List Nat
  sourceRaises : String → Bool
  max_movies : Nat
  batch_size : Nat
  max_workers : Nat
  outcome : Nat → Outcome
  completionOrder : List Nat

/-- `resume_from` is truthy: the argument was given (lines 298, 358, 383
test the string, not whether loading succeeded). -/
def resumeGiven (inp : CrawlInputs) : Bool :=
  match inp.resume with
  | .noResumeArg => false
  | _ => true

/-- The candidate ids loaded from the resume file (lines 296-307): the
file's `failed_movie_ids` when the argument was given, the file exists
and parses; `[]` otherwise (falling through to discovery). -/
def resumeIds (inp : CrawlInputs) : List Nat :=
  match inp.resume with
  | .loaded ids => ids
  | _ => []

/-- The ids surfaced while crawling the enabled sources, in discovery
order (sources in list order, each source's ids in page order); a source
whose crawl raises contributes nothing (lines 315-331). -/
def surfacedIds (inp : CrawlInputs) : List Nat :=
  (inp.sources.filter (fun s => inp.sourceRaises s = false)).flatMap inp.sourceIds

/-- The `movie_sources` attribution map (lines 321-327): for each id, the
sources that surfaced it, appended once per occurrence. -/
def movieSourcesOf (inp : CrawlInputs) : Nat → List String :=
  (inp.sources.filter (fun s => inp.sourceRaises s = false)).foldl
    (fun acc s =>
      (inp.sourceIds s).foldl
        (fun acc movie_id => fun id' =>
          if id' = movie_id then acc id' ++ [s] else acc id')
        acc)
    (fun _ => [])

/-- Result of the candidate-selection phase (lines 296-348). -/
structure PrepResult where
  selected_movies : List Nat
  discoveryRan : Bool
  movie_sources : Nat → List String
  writes : List FileWrite

/-- Candidate selection (lines 296-348): a non-empty resume load is used
directly, skipping discovery entirely; otherwise the sources are crawled,
the deduplicating id set and the attribution map are built, the discovery
summary file is written, and the first `max_movies` elements of
`list(all_movie_ids)` are selected. -/
def prepare (inp : CrawlInputs) : PrepResult :=
  if resumeIds inp ≠ [] then
    { selected_movies := resumeIds inp, discoveryRan := false,
      movie_sources := fun _ => [], writes := [] }
  else
    let all_movie_ids := pySetOfList (surfacedIds inp)
    { selected_movies := (pySetToList all_movie_ids).take inp.max_movies,
      discoveryRan := true,
      movie_sources := movieSourcesOf inp,
      writes := [.movieListSummary (pySetToList all_movie_ids).length] }

/-- The `sources` entry of the dataset header (line 358):
`sources if not resume_from else "resume"` — `none` models the string
`"resume"`, `some l` the source list. -/
def headerSources (inp : CrawlInputs) : Option (List String) :=
  if resumeGiven inp then none else some inp.sources

/-- Exceptions a run can raise. -/
inductive PyExc where
  | attributeError : PyExc
  | valueError : PyExc
  deriving DecidableEq, Repr

/-- The final `crawl_summary` dict (lines 403-411). -/
structure CrawlSummary where
  total_movies_attempted : Nat
  successful_crawls : Nat
  failed_crawls : Nat
  failed_movie_ids : List Nat
  deriving DecidableEq, Repr

/-- The dict `crawl_daily_netflix_data` returns (lines 403-413, 428). -/
structure FinalResults where
  crawl_summary : CrawlSummary
  movies : List MovieData
  deriving DecidableEq, Repr

/-- `crawl_daily_netflix_data` (netflix_crawler.py:256-428): select the
candidates, write the dataset header, spin up the pool — raising
`ValueError` when `min(self.max_workers, len(selected_movies))` is zero,
as `ThreadPoolExecutor` rejects `max_workers = 0` — drain the results,
then write the final consolidated results and, when failures exist, the
failure file.  Returns the result (or the exception) together with every
file write the run performed, in order. -/
def crawl_daily_netflix_data (inp : CrawlInputs) :
    Except PyExc FinalResults × List FileWrite :=
  let prep := prepare inp
  let header : FileWrite :=
    .datasetHeader prep.selected_movies.length (headerSources inp)
  let writes0 := prep.writes ++ [header]
  if min inp.max_workers prep.selected_movies.length = 0 then
    (.error .valueError, writes0)
  else
    let st := runLoop inp.batch_size prep.selected_movies.length
      (resumeGiven inp) prep.movie_sources inp.outcome inp.completionOrder 1
      initLoopState
    let summary : CrawlSummary :=
      { total_movies_attempted := prep.selected_movies.length,
        successful_crawls := st.detailed_movies.length,
        failed_crawls := st.failed_movies.length,
        failed_movie_ids := st.failed_movies }
    let fr : FinalResults := { crawl_summary := summary, movies := st.detailed_movies }
    let writes := writes0 ++ st.batchWrites.map (fun p => FileWrite.batchFile p.1 p.2)
      ++ [.datasetFinal summary.total_movies_attempted summary.successful_crawls
            summary.failed_crawls summary.failed_movie_ids]
      ++ (if st.failed_movies = [] then [] else [.failedFile st.failed_movies])
    (.ok fr, writes)

/-! ## Constructor wiring (`NetflixDataCrawler.__init__`, `CacheManager.__init__`,
`TMDBClient.__init__`) -/

/-- The configuration object the crawler is constructed from (the slice
of `Config` these constructors read). -/
structure CrawlerConfig where
  tmdb_api_key : Option String
  cache_dir : String
  use_cache : Bool
  cache_ttl : Nat
  deriving DecidableEq, Repr

/-- A Python value passed where `CacheManager.__init__` expects a config:
either a proper `Config` object or a plain string. -/
inductive PyObj where
  | pyStr : String → PyObj
  | pyConfig : CrawlerConfig → PyObj
  deriving DecidableEq, Repr

/-- `CacheManager.__init__` (cache_manager.py:18-27): its first read is
`config.get("cache_dir")`; a `str` has no `get` method, so a string
argument raises `AttributeError` before anything else happens. -/
def cacheManagerInit (config : PyObj) : Except PyExc CacheManager.Config :=
  match config with
  | .pyStr _ => .error .attributeError
  | .pyConfig c =>
      .ok { cache_dir := c.cache_dir, use_cache := c.use_cache,
            cache_ttl := c.cache_ttl }

/-- `TMDBClient.__init__` (tmdb_client.py:27-53): reads config keys (a
string argument would raise `AttributeError` on the first `.get`),
constructs `CacheManager(config)` with the same object, then raises
`ValueError` when no API key is configured. -/
def tmdbClientInit (config : PyObj) : Except PyExc (String × CacheManager.Config) :=
  match config with
  | .pyStr _ => .error .attributeError
  | .pyConfig c =>
    match cacheManagerInit config with
    | .error e => .error e
    | .ok cm =>
      match c.tmdb_api_key with
      | none => .error .valueError
      | some k => .ok (k, cm)

/-- The crawler state `NetflixDataCrawler.__init__` would produce. -/
structure CrawlerState where
  tmdb : String × CacheManager.Config
  cache : CacheManager.Config
  deriving DecidableEq, Repr

/-- `NetflixDataCrawler.__init__` (netflix_crawler.py:38-71): construct
`TMDBClient(self.config)`, read `cache_dir = self.config.get("cache_dir", "cache")`
(a string), then construct `CacheManager(cache_dir)` — passing the string
where `CacheManager.__init__` expects the config object. -/
def netflixDataCrawlerInit (c : CrawlerConfig) : Except PyExc CrawlerState :=
  match tmdbClientInit (.pyConfig c) with
  | .error e => .error e
  | .ok tmdb =>
    let cache_dir := c.cache_dir
    match cacheManagerInit (.pyStr cache_dir) with
    | .error e => .error e
    | .ok cache => .ok { tmdb := tmdb, cache := cache }

/-! ## Derived observations and concrete run inputs used by the theorems -/

/-- The `(batch_index, record_count)` of every batch-file write, in write
order.  Two entries with the same batch index denote writes to the same
file path (`detailed_movies_batch_{batch_index}_{timestamp}.json`, with
the timestamp constant within a run). -/
def batchFileSizes (ws : List FileWrite) : List (Nat × Nat) :=
  ws.filterMap fun w =>
    match w with
    | .batchFile j ms => some (j, ms.length)
    | _ => none

/-- A worker record whose base-details fetch succeeded. -/
def okMovie (movie_id : Nat) : MovieData :=
  { movie_id := movie_id, details := some (.jint (movie_id : Int)),
    credits := none, keywords := none, videos := none, reviews := none,
    similar := none, sources := none }

/-- The selection the claim describes, written from the spec's words for
comparison with the implementation: "the first max_movies identifiers in
discovery order (the order in which identifiers were first surfaced while
crawling the enabled sources)". -/
def firstSurfacedOrder (ids : List Nat) : List Nat :=
  ids.foldl (fun acc x => if x ∈ acc then acc else acc ++ [x]) []

/-- The candidate set the claim asserts: first `max_movies` ids in
discovery order.  Written from the spec's words, not the source. -/
def selectedPerSpec (inp : CrawlInputs) : List Nat :=
  (firstSurfacedOrder (surfacedIds inp)).take inp.max_movies

/-- A run over the distinct candidates `[5, 9]` where movie 5 succeeds
and movie 9's future raises, completing in the order 9 then 5. -/
def inpC1 : CrawlInputs :=
  { resume := .loaded [5, 9], sources := [], sourceIds := fun _ => [],
    sourceRaises := fun _ => false, max_movies := 100, batch_size := 25,
    max_workers := 5,
    outcome := fun movie_id =>
      if movie_id = 5 then .returned (okMovie 5) else .raised,
    completionOrder := [9, 5] }

/-- A run with `batch_size = 25` and 60 distinct candidates that all
complete successfully, in submission order. -/
def inpC2 : CrawlInputs :=
  { resume := .loaded (List.range' 1 60), sources := [], sourceIds := fun _ => [],
    sourceRaises := fun _ => false, max_movies := 100, batch_size := 25,
    max_workers := 5,
    outcome := fun movie_id => .returned (okMovie movie_id),
    completionOrder := List.range' 1 60 }

/-- A resume run from a failure file listing `[5, 9]`. -/
def inpC4 : CrawlInputs :=
  { resume := .loaded [5, 9], sources := ["netflix", "popular"],
    sourceIds := fun _ => [10, 11], sourceRaises := fun _ => false,
    max_movies := 100, batch_size := 25, max_workers := 5,
    outcome := fun movie_id => .returned (okMovie movie_id),
    completionOrder := [5, 9] }

/-- A discovery run whose single source surfaces id 1 first and id 8
second, with `max_movies = 1`: CPython's set iterates slot order, so
`list({1, 8}) = [8, 1]` and the code selects `[8]`, not the first id in
discovery order. -/
def inpC5 : CrawlInputs :=
  { resume := .noResumeArg, sources := ["popular"],
    sourceIds := fun _ => [1, 8], sourceRaises := fun _ => false,
    max_movies := 1, batch_size := 25, max_workers := 5,
    outcome := fun movie_id => .returned (okMovie movie_id),
    completionOrder := [] }

/-- A discovery run in which every enabled source surfaces zero ids, so
the candidate set is empty. -/
def inpC10 : CrawlInputs :=
  { resume := .noResumeArg, sources := ["popular"],
    sourceIds := fun _ => [], sourceRaises := fun _ => false,
    max_movies := 100, batch_size := 25, max_workers := 5,
    outcome := fun _ => .raised, completionOrder := [] }

/-- Sub-resource fetch results where base details and credits succeed but
the reviews fetch fails. -/
def fetchC6 : FetchResults :=
  { details := some (.jstr "Movie Title"), credits := some (.jint 42),
    keywords := none, videos := none, reviews := none,
    similar := some (.jint 3) }

/-- A configuration with an API key set, used to exercise the crawler
constructor. -/
def cfgC9 : CrawlerConfig :=
  { tmdb_api_key := some "key", cache_dir := "data/cache",
    use_cache := true, cache_ttl := 86400 }

/-- Strict key order on parameter entries (used to show canonicalized
orders are unique). -/
def keyLT (a b : String × JVal) : Prop := a.1 < b.1

instance : IsAntisymm (String × JVal) keyLT :=
  ⟨fun _ _ h h' => absurd h' (lt_asymm h)⟩

/-! # Theorems -/

theorem md5Bytes_length (msg : List Nat) : (md5Bytes msg).length = 16 := by
  unfold md5Bytes
  rcases md5Words msg with ⟨a, b, c, d⟩
  simp [wordLE]

theorem flatMap_hexByte_length (l : List Nat) :
    (l.flatMap hexByte).length = 2 * l.length := by
  induction l with
  | nil => simp
  | cons a l ih =>
      simp only [List.flatMap_cons, List.length_append, ih, hexByte,
        List.length_cons, List.length_nil]
      omega

theorem md5Hex_length (msg : List Nat) : (md5Hex msg).length = 32 := by
  show ((md5Bytes msg).flatMap hexByte).length = 32
  rw [flatMap_hexByte_length, md5Bytes_length]

/-- Canonicalization: two parameter dicts with the same entries (in any
order) and unique keys sort to the same entry list. -/
theorem insertionSort_eq_of_perm (p1 p2 : List (String × JVal))
    (hperm : p1.Perm p2) (hkeys : (p1.map Prod.fst).Nodup) :
    p1.insertionSort keyLE = p2.insertionSort keyLE := by
  have hstrict : ∀ (l : List (String × JVal)), List.Sorted keyLE l →
      (l.map Prod.fst).Nodup → List.Sorted keyLT l := by
    intro l hs hnd
    have hne : List.Pairwise (fun a b : String × JVal => a.1 ≠ b.1) l :=
      List.pairwise_map.mp hnd
    exact (List.Pairwise.and hs hne).imp fun h => lt_of_le_of_ne h.1 h.2
  have hp : (p1.insertionSort keyLE).Perm (p2.insertionSort keyLE) :=
    (List.perm_insertionSort keyLE p1).trans
      (hperm.trans (List.perm_insertionSort keyLE p2).symm)
  have hnd1 : ((p1.insertionSort keyLE).map Prod.fst).Nodup :=
    (((List.perm_insertionSort keyLE p1).map Prod.fst).nodup_iff).mpr hkeys
  have hnd2 : ((p2.insertionSort keyLE).map Prod.fst).Nodup :=
    (((List.perm_insertionSort keyLE p2).map Prod.fst).nodup_iff).mpr
      ((hperm.map Prod.fst).nodup_iff.mp hkeys)
  exact List.eq_of_perm_of_sorted hp
    (hstrict _ (List.sorted_insertionSort keyLE p1) hnd1)
    (hstrict _ (List.sorted_insertionSort keyLE p2) hnd2)

/-- C7: cache-key derivation is invariant under reordering of parameter
entries — for every endpoint and every two parameter dicts holding the
same key-value pairs in any insertion order (dict keys are unique),
`_get_cache_key` returns the identical key, and that key is a fixed-length
(32 hex character) digest. -/
theorem cache_key_param_order_invariant (endpoint : String)
    (p1 p2 : List (String × JVal)) (hperm : p1.Perm p2)
    (hkeys : (p1.map Prod.fst).Nodup) :
    CacheManager.get_cache_key endpoint p1 =
      CacheManager.get_cache_key endpoint p2 ∧
    (CacheManager.get_cache_key endpoint p1).length = 32 := by
  refine ⟨?_, md5Hex_length _⟩
  by_cases h1 : p1 = []
  · have h2 : p2 = [] := by
      subst h1
      exact hperm.symm.eq_nil
    rw [h1, h2]
  · have h2 : p2 ≠ [] := by
      intro h
      exact h1 (List.Perm.eq_nil (h ▸ hperm))
    unfold CacheManager.get_cache_key
    rw [if_neg h1, if_neg h2, insertionSort_eq_of_perm p1 p2 hperm hkeys]

/-- Witness for C7 at the claim's example: `key(ep, (a:1, b:2)) =
key(ep, (b:2, a:1))`. -/
theorem cache_key_param_order_invariant_witness :
    [("a", JVal.jint 1), ("b", JVal.jint 2)].Perm
        [("b", JVal.jint 2), ("a", JVal.jint 1)] ∧
    CacheManager.get_cache_key "discover/movie"
        [("a", JVal.jint 1), ("b", JVal.jint 2)] =
      CacheManager.get_cache_key "discover/movie"
        [("b", JVal.jint 2), ("a", JVal.jint 1)] ∧
    (CacheManager.get_cache_key "discover/movie"
        [("a", JVal.jint 1), ("b", JVal.jint 2)]).length = 32 :=
  ⟨by decide,
   (cache_key_param_order_invariant "discover/movie"
      [("a", JVal.jint 1), ("b", JVal.jint 2)]
      [("b", JVal.jint 2), ("a", JVal.jint 1)] (by decide) (by decide)).1,
   (cache_key_param_order_invariant "discover/movie"
      [("a", JVal.jint 1), ("b", JVal.jint 2)]
      [("b", JVal.jint 2), ("a", JVal.jint 1)] (by decide) (by decide)).2⟩

/-- C8: for every (endpoint, params) key, a lookup while
`now - stored_at <= ttl` returns exactly the payload of the most recent
store for that key (a later store overwrites the earlier one), and once
`now - stored_at` exceeds `ttl` the lookup returns `None` for that key
with no explicit eviction; `get` is a total function, so a missing or
expired entry never raises. -/
theorem cache_get_returns_most_recent_set (cfg : CacheManager.Config)
    (fs : CacheManager.FS) (t1 t2 now : Nat) (endpoint : String)
    (params : List (String × JVal)) (d1 d2 : JVal)
    (huse : cfg.use_cache = true) :
    (now - t2 ≤ cfg.cache_ttl →
      CacheManager.get cfg
        (CacheManager.set cfg
          (CacheManager.set cfg fs t1 endpoint params (some d1)).2
          t2 endpoint params (some d2)).2
        now endpoint params = some d2) ∧
    (cfg.cache_ttl < now - t2 →
      CacheManager.get cfg
        (CacheManager.set cfg
          (CacheManager.set cfg fs t1 endpoint params (some d1)).2
          t2 endpoint params (some d2)).2
        now endpoint params = none) := by
  have hset : (CacheManager.set cfg
      (CacheManager.set cfg fs t1 endpoint params (some d1)).2
      t2 endpoint params (some d2)).2 =
      (CacheManager.cachePath cfg endpoint params, t2, d2) ::
        (CacheManager.cachePath cfg endpoint params, t1, d1) :: fs := by
    simp [CacheManager.set, huse]
  have hlook : CacheManager.fsLookup
      ((CacheManager.cachePath cfg endpoint params, t2, d2) ::
        (CacheManager.cachePath cfg endpoint params, t1, d1) :: fs)
      (CacheManager.cachePath cfg endpoint params) = some (t2, d2) := by
    simp [CacheManager.fsLookup]
  constructor
  · intro hfresh
    rw [hset]
    simp [CacheManager.get, huse, hlook, hfresh]
  · intro hstale
    rw [hset]
    simp [CacheManager.get, huse, hlook]
    omega

/-- Witness for C8 at a concrete key, payloads and clock values. -/
theorem cache_get_returns_most_recent_set_witness :
    ({ cache_dir := "data/cache", use_cache := true,
       cache_ttl := 86400 } : CacheManager.Config).use_cache = true ∧
    (100 - 50 ≤ 86400 →
      CacheManager.get
        { cache_dir := "data/cache", use_cache := true, cache_ttl := 86400 }
        (CacheManager.set
          { cache_dir := "data/cache", use_cache := true, cache_ttl := 86400 }
          (CacheManager.set
            { cache_dir := "data/cache", use_cache := true, cache_ttl := 86400 }
            [] 10 "movie/550" [] (some (.jint 1))).2
          50 "movie/550" [] (some (.jint 2))).2
        100 "movie/550" [] = some (.jint 2)) := by
  constructor
  · rfl
  · exact (cache_get_returns_most_recent_set
      { cache_dir := "data/cache", use_cache := true, cache_ttl := 86400 }
      [] 10 50 100 "movie/550" [] (.jint 1) (.jint 2) rfl).1

/-- C3: `make_request` with `max_retries = 3` — when the remote call
fails with a transient (retryable) error exactly twice and then succeeds,
it returns the successful payload after 3 attempts with exactly the 2
backoff sleeps `2^1` and `2^2`; when every remote call fails with a
non-retryable client error (HTTP 400, 401, 403 or 404), it returns `None`
after exactly 1 remote attempt and no backoff sleep. -/
theorem make_request_retry_policy (d : JVal) (e0 e1 : RemoteResp) (c : Nat)
    (h0 : retryable e0 = true) (h1 : retryable e1 = true)
    (hc : c ∈ clientErrorCodes) :
    make_request none 3
        (fun attempt => if attempt = 0 then e0 else if attempt = 1 then e1
                        else .ok d) = (some d, 3, [2, 4]) ∧
    make_request none 3 (fun _ => .httpError c) = (none, 1, []) := by
  constructor
  · rcases e0 with d0 | s0 | _ <;> rcases e1 with d1 | s1 | _
    · simp [retryable] at h0
    · simp [retryable] at h0
    · simp [retryable] at h0
    · simp [retryable] at h1
    · have hs0 : s0 ∉ clientErrorCodes := by simpa [retryable] using h0
      have hs1 : s1 ∉ clientErrorCodes := by simpa [retryable] using h1
      simp [make_request, retryLoop, hs0, hs1]
    · have hs0 : s0 ∉ clientErrorCodes := by simpa [retryable] using h0
      simp [make_request, retryLoop, hs0]
    · simp [retryable] at h1
    · have hs1 : s1 ∉ clientErrorCodes := by simpa [retryable] using h1
      simp [make_request, retryLoop, hs1]
    · simp [make_request, retryLoop]
  · simp [make_request, retryLoop, hc]

/-- Witness for C3: a transient network error twice then success, and a
constant 404 responder. -/
theorem make_request_retry_policy_witness :
    retryable .reqError = true ∧ 404 ∈ clientErrorCodes ∧
    make_request none 3
        (fun attempt => if attempt = 0 then RemoteResp.reqError
                        else if attempt = 1 then RemoteResp.reqError
                        else .ok (.jint 7)) = (some (.jint 7), 3, [2, 4]) ∧
    make_request none 3 (fun _ => .httpError 404) = (none, 1, []) := by
  refine ⟨by decide, by decide, ?_, ?_⟩
  · exact (make_request_retry_policy (.jint 7) .reqError .reqError 404
      (by decide) (by decide) (by decide)).1
  · exact (make_request_retry_policy (.jint 7) .reqError .reqError 404
      (by decide) (by decide) (by decide)).2

/-- C9: for every configuration, constructing `NetflixDataCrawler` raises
before any crawl can start; in particular, whenever an API key is
configured (so `TMDBClient.__init__` does not raise first), the
construction reaches `CacheManager(cache_dir)` — a string passed where
the config object is expected — and `config.get("cache_dir")` on that
string raises `AttributeError`. -/
theorem netflix_crawler_init_raises (c : CrawlerConfig) :
    (∃ e, netflixDataCrawlerInit c = .error e) ∧
    (∀ k, c.tmdb_api_key = some k →
      netflixDataCrawlerInit c = .error .attributeError) := by
  constructor
  · cases hk : c.tmdb_api_key with
    | none =>
        exact ⟨.valueError,
          by simp [netflixDataCrawlerInit, tmdbClientInit, cacheManagerInit, hk]⟩
    | some k =>
        exact ⟨.attributeError,
          by simp [netflixDataCrawlerInit, tmdbClientInit, cacheManagerInit, hk]⟩
  · intro k hk
    simp [netflixDataCrawlerInit, tmdbClientInit, cacheManagerInit, hk]

/-- Witness for C9 at a configuration with an API key set. -/
theorem netflix_crawler_init_raises_witness :
    cfgC9.tmdb_api_key = some "key" ∧
    netflixDataCrawlerInit cfgC9 = .error .attributeError :=
  ⟨rfl, (netflix_crawler_init_raises cfgC9).2 "key" rfl⟩

/-- C4: when `resume_from` names an existing failure file whose
`failed_movie_ids` list is non-empty, the run uses exactly that list as
its candidate set, invokes no discovery (no list-source crawling and no
discovery-summary write), and the dataset header attributes the sources
as `"resume"` (modelled by `none`) instead of a source list. -/
theorem resume_uses_failure_ids (inp : CrawlInputs) (ids : List Nat)
    (hres : inp.resume = .loaded ids) (hne : ids ≠ []) :
    (prepare inp).selected_movies = ids ∧
    (prepare inp).discoveryRan = false ∧
    (prepare inp).writes = [] ∧
    headerSources inp = none := by
  have hrid : resumeIds inp = ids := by simp [resumeIds, hres]
  have hcond : resumeIds inp ≠ [] := by rw [hrid]; exact hne
  refine ⟨?_, ?_, ?_, ?_⟩ <;>
    simp [prepare, hcond, hrid, hne, headerSources, resumeGiven, hres]

/-- Witness for C4 at the claim's failure file `[5, 9]`. -/
theorem resume_uses_failure_ids_witness :
    inpC4.resume = .loaded [5, 9] ∧
    (prepare inpC4).selected_movies = [5, 9] ∧
    (prepare inpC4).discoveryRan = false ∧
    (prepare inpC4).writes = [] ∧
    headerSources inpC4 = none := by
  have h := resume_uses_failure_ids inpC4 [5, 9] rfl (by decide)
  exact ⟨rfl, h.1, h.2.1, h.2.2.1, h.2.2.2⟩

/-- Probing inserts nothing but `x`: every element of the table after
`pyProbeGo` was already there or is `x`. -/
theorem pyProbeGo_mem {y x : Nat} :
    ∀ {fuel j p : Nat} {slots : List (Option Nat)},
      some y ∈ pyProbeGo fuel j p x slots → some y ∈ slots ∨ y = x := by
  intro fuel
  induction fuel with
  | zero => intro j p slots h; exact .inl h
  | succ fuel ih =>
      intro j p slots h
      rw [pyProbeGo] at h
      split at h
      · rcases List.mem_or_eq_of_mem_set h with h' | h'
        · exact .inl h'
        · exact .inr (Option.some_injective _ h')
      · split at h
        · exact .inl h
        · exact ih h

/-- Every element of the accumulated id set was inserted. -/
theorem foldl_pySetAdd_mem {y : Nat} :
    ∀ (ids : List Nat) (slots : List (Option Nat)),
      some y ∈ ids.foldl pySetAdd slots → some y ∈ slots ∨ y ∈ ids := by
  intro ids
  induction ids with
  | nil => intro slots h; exact .inl h
  | cons a l ih =>
      intro slots h
      rcases ih (pySetAdd slots a) h with h' | h'
      · rcases pyProbeGo_mem h' with h'' | h''
        · exact .inl h''
        · exact .inr (by simp [h''])
      · exact .inr (List.mem_cons_of_mem a h')

/-- Every id listed from the discovery set was surfaced by a source. -/
theorem pySetToList_mem {y : Nat} {ids : List Nat}
    (h : y ∈ pySetToList (pySetOfList ids)) : y ∈ ids := by
  have hsome : some y ∈ pySetOfList ids := by
    obtain ⟨a, ha, hid⟩ := List.mem_filterMap.mp h
    have ha' : a = some y := hid
    rwa [ha'] at ha
  rcases foldl_pySetAdd_mem ids (List.replicate 8 none) hsome with h' | h'
  · exact absurd (List.eq_of_mem_replicate h') (by simp)
  · exact h'

/-- C5 counterexample: with one source surfacing id 1 then id 8 and
`max_movies = 1`, the code selects `[8]` — `list({1, 8})` iterates the
hash table, not the discovery order — while the claim's
first-in-discovery-order selection is `[1]`. -/
theorem selected_movies_not_discovery_order :
    (prepare inpC5).selected_movies = [8] ∧
    selectedPerSpec inpC5 = [1] ∧
    (prepare inpC5).selected_movies ≠ selectedPerSpec inpC5 := by
  refine ⟨by decide, by decide, ?_⟩
  intro h
  rw [show (prepare inpC5).selected_movies = [8] from by decide,
    show selectedPerSpec inpC5 = [1] from by decide] at h
  exact absurd h (by decide)

/-- C5 amended: after discovery the candidate set holds at most
`max_movies` identifiers, each one surfaced by an enabled source, with no
ranking applied — but its order is the accumulating hash set's iteration
order, not the discovery order. -/
theorem selected_movies_bounded_and_discovered (inp : CrawlInputs)
    (hres : resumeIds inp = []) :
    (prepare inp).selected_movies.length ≤ inp.max_movies ∧
    ∀ x ∈ (prepare inp).selected_movies, x ∈ surfacedIds inp := by
  have hcond : ¬ resumeIds inp ≠ [] := by simp [hres]
  constructor
  · simp only [prepare, if_neg hcond]
    simp [List.length_take]
  · intro x hx
    simp only [prepare, if_neg hcond] at hx
    exact pySetToList_mem (List.mem_of_mem_take hx)

/-- Witness for the amended C5 at the concrete discovery run. -/
theorem selected_movies_bounded_and_discovered_witness :
    resumeIds inpC5 = [] ∧
    ((prepare inpC5).selected_movies.length ≤ inpC5.max_movies ∧
      ∀ x ∈ (prepare inpC5).selected_movies, x ∈ surfacedIds inpC5) :=
  ⟨by decide, selected_movies_bounded_and_discovered inpC5 (by decide)⟩

/-- Flushing a batch touches only the buffer and the write log. -/
theorem flushCheck_detailed (bs n i : Nat) (st : LoopState) :
    (flushCheck bs n i st).detailed_movies = st.detailed_movies := by
  unfold flushCheck
  split
  · split <;> rfl
  · rfl

/-- Flushing a batch leaves the failure list unchanged. -/
theorem flushCheck_failed (bs n i : Nat) (st : LoopState) :
    (flushCheck bs n i st).failed_movies = st.failed_movies := by
  unfold flushCheck
  split
  · split <;> rfl
  · rfl

/-- One `as_completed` iteration for an id not yet in the failure list
either appends exactly one record to the success list (failure list
unchanged) or appends exactly that id to the failure list (success list
unchanged). -/
theorem loopStep_cases (bs n : Nat) (rg : Bool) (ms : Nat → List String)
    (st : LoopState) (i movie_id : Nat) (out : Outcome)
    (hnotin : movie_id ∉ st.failed_movies) :
    ((loopStep bs n rg ms st i movie_id out).detailed_movies.length =
        st.detailed_movies.length + 1 ∧
      (loopStep bs n rg ms st i movie_id out).failed_movies =
        st.failed_movies) ∨
    ((loopStep bs n rg ms st i movie_id out).detailed_movies =
        st.detailed_movies ∧
      (loopStep bs n rg ms st i movie_id out).failed_movies =
        st.failed_movies ++ [movie_id]) := by
  cases out with
  | raised =>
      right
      simp [loopStep, hnotin]
  | returned md =>
      by_cases hd : md.details.isSome
      · left
        simp [loopStep, hd, flushCheck_detailed, flushCheck_failed]
      · right
        simp [loopStep, hd, hnotin, flushCheck_detailed, flushCheck_failed]

/-- Draining-loop invariant: over distinct pending ids none of which is
already marked failed, each drained id adds exactly one to the combined
success/failure count, the failure list stays duplicate-free, and it only
ever grows by pending ids. -/
theorem runLoop_invariant (bs n : Nat) (rg : Bool) (ms : Nat → List String)
    (outcome : Nat → Outcome) :
    ∀ (ids : List Nat) (i : Nat) (st : LoopState),
      ids.Nodup → (∀ x ∈ ids, x ∉ st.failed_movies) →
      ((runLoop bs n rg ms outcome ids i st).detailed_movies.length +
          (runLoop bs n rg ms outcome ids i st).failed_movies.length =
        st.detailed_movies.length + st.failed_movies.length + ids.length) ∧
      (st.failed_movies.Nodup →
        (runLoop bs n rg ms outcome ids i st).failed_movies.Nodup) ∧
      (∀ x ∈ (runLoop bs n rg ms outcome ids i st).failed_movies,
        x ∈ st.failed_movies ∨ x ∈ ids) := by
  intro ids
  induction ids with
  | nil =>
      intro i st _ _
      exact ⟨by simp [runLoop], fun h => h, fun x hx => .inl hx⟩
  | cons a l ih =>
      intro i st hnd hnotin
      have ha : a ∉ st.failed_movies := hnotin a (List.mem_cons_self a l)
      have hl_nodup : l.Nodup := (List.nodup_cons.mp hnd).2
      have ha_notl : a ∉ l := (List.nodup_cons.mp hnd).1
      have hstep := loopStep_cases bs n rg ms st i a (outcome a) ha
      have hnotin1 : ∀ x ∈ l,
          x ∉ (loopStep bs n rg ms st i a (outcome a)).failed_movies := by
        intro x hx hxf
        rcases hstep with ⟨_, hf⟩ | ⟨_, hf⟩
        · rw [hf] at hxf
          exact hnotin x (List.mem_cons_of_mem a hx) hxf
        · rw [hf] at hxf
          rcases List.mem_append.mp hxf with h' | h'
          · exact hnotin x (List.mem_cons_of_mem a hx) h'
          · have : x = a := by simpa using h'
            exact ha_notl (this ▸ hx)
      have IH := ih (i + 1) (loopStep bs n rg ms st i a (outcome a))
        hl_nodup hnotin1
      have hrun : runLoop bs n rg ms outcome (a :: l) i st =
          runLoop bs n rg ms outcome l (i + 1)
            (loopStep bs n rg ms st i a (outcome a)) := rfl
      rw [hrun]
      refine ⟨?_, ?_, ?_⟩
      · have hsum := IH.1
        rcases hstep with ⟨hd, hf⟩ | ⟨hd, hf⟩
        · rw [hd, hf] at hsum
          simpa [Nat.add_assoc, Nat.add_comm, Nat.add_left_comm] using hsum
        · rw [hd, hf] at hsum
          simp only [List.length_append, List.length_cons, List.length_nil] at hsum ⊢
          omega
      · intro hnd0
        apply IH.2.1
        rcases hstep with ⟨_, hf⟩ | ⟨_, hf⟩
        · rw [hf]; exact hnd0
        · rw [hf]
          simp [List.nodup_append, hnd0, ha]
      · intro x hx
        rcases IH.2.2 x hx with h' | h'
        · rcases hstep with ⟨_, hf⟩ | ⟨_, hf⟩
          · rw [hf] at h'
            exact .inl h'
          · rw [hf] at h'
            rcases List.mem_append.mp h' with h'' | h''
            · exact .inl h''
            · have : x = a := by simpa using h''
              exact .inr (this ▸ List.mem_cons_self a l)
        · exact .inr (List.mem_cons_of_mem a h')

/-- C1: for every run over a candidate set of distinct identifiers that
reaches the worker pool, the run completes and its final `crawl_summary`
satisfies `successful_crawls + failed_crawls = total_movies_attempted`
(each candidate counted exactly once, as a success when its base details
were obtained and as a failure otherwise, including when the worker
raised), and `failed_movie_ids` contains no duplicate identifier. -/
theorem crawl_summary_counts (inp : CrawlInputs)
    (hperm : inp.completionOrder.Perm (prepare inp).selected_movies)
    (hnd : (prepare inp).selected_movies.Nodup)
    (hpool : min inp.max_workers (prepare inp).selected_movies.length ≠ 0) :
    ∃ fr ws, crawl_daily_netflix_data inp = (.ok fr, ws) ∧
      fr.crawl_summary.successful_crawls + fr.crawl_summary.failed_crawls =
        fr.crawl_summary.total_movies_attempted ∧
      fr.crawl_summary.failed_movie_ids.Nodup := by
  have hordnd : inp.completionOrder.Nodup := hperm.symm.nodup hnd
  have hlen : inp.completionOrder.length = (prepare inp).selected_movies.length :=
    hperm.length_eq
  have hinv := runLoop_invariant inp.batch_size (prepare inp).selected_movies.length
    (resumeGiven inp) (prepare inp).movie_sources inp.outcome
    inp.completionOrder 1 initLoopState hordnd
    (by intro x _ hx; simp [initLoopState] at hx)
  unfold crawl_daily_netflix_data
  rw [if_neg hpool]
  refine ⟨_, _, rfl, ?_, ?_⟩
  · have hsum := hinv.1
    simp only [initLoopState, List.length_nil, Nat.zero_add] at hsum
    simpa using hsum.trans hlen
  · exact hinv.2.1 (by simp [initLoopState])

/-- Witness for C1: a two-candidate resume run in which movie 5 succeeds
and movie 9's future raises, completing out of submission order. -/
theorem crawl_summary_counts_witness :
    ∃ fr ws, crawl_daily_netflix_data inpC1 = (.ok fr, ws) ∧
      fr.crawl_summary.successful_crawls + fr.crawl_summary.failed_crawls =
        fr.crawl_summary.total_movies_attempted ∧
      fr.crawl_summary.failed_movie_ids.Nodup :=
  crawl_summary_counts inpC1 (by decide) (by decide) (by decide)

/-- C2 (evaluation at the failing input): with `batch_size = 25` and 60
distinct candidates all completing successfully, the run performs three
batch flushes of sizes 25, 25 and 10 — but their batch indices are
`i // batch_size` for completion counts 25, 50 and 60, i.e. 1, 2 and 2,
so the second and third flush write the same file path
(`detailed_movies_batch_2_{timestamp}.json`) and only 2 distinct batch
files exist after the run, not the 3 the claim states. -/
theorem batch_file_index_collision :
    batchFileSizes (crawl_daily_netflix_data inpC2).2 =
      [(1, 25), (2, 25), (2, 10)] ∧
    ¬ ((batchFileSizes (crawl_daily_netflix_data inpC2).2).map Prod.fst).Nodup := by
  constructor
  · set_option maxRecDepth 4000 in decide
  · set_option maxRecDepth 4000 in decide

/-- C6: when the base-details fetch succeeds, the worker's record carries
exactly what each sub-resource fetch produced — in particular `reviews`
stays empty when the reviews fetch failed — and the orchestrator counts
the item as a success: the drained record is appended to the success
list and the failure list is unchanged, whatever the other sub-resource
fetches did. -/
theorem partial_enrichment_counts_success (movie_id : Nat) (f : FetchResults)
    (d : JVal) (hd : f.details = some d) (bs n : Nat) (rg : Bool)
    (ms : Nat → List String) (st : LoopState) (i : Nat) :
    (crawl_movie_details none movie_id f).details = some d ∧
    (crawl_movie_details none movie_id f).credits = f.credits ∧
    (crawl_movie_details none movie_id f).keywords = f.keywords ∧
    (crawl_movie_details none movie_id f).videos = f.videos ∧
    (crawl_movie_details none movie_id f).reviews = f.reviews ∧
    (crawl_movie_details none movie_id f).similar = f.similar ∧
    (f.reviews = none → (crawl_movie_details none movie_id f).reviews = none) ∧
    (loopStep bs n rg ms st i movie_id
        (.returned (crawl_movie_details none movie_id f))).failed_movies =
      st.failed_movies ∧
    ∃ md', (loopStep bs n rg ms st i movie_id
        (.returned (crawl_movie_details none movie_id f))).detailed_movies =
          st.detailed_movies ++ [md'] ∧
      md'.details = some d ∧ md'.reviews = f.reviews := by
  have hmd : crawl_movie_details none movie_id f =
      { movie_id := movie_id, details := some d, credits := f.credits,
        keywords := f.keywords, videos := f.videos, reviews := f.reviews,
        similar := f.similar, sources := none } := by
    simp [crawl_movie_details, hd]
  rw [hmd]
  refine ⟨rfl, rfl, rfl, rfl, rfl, rfl, fun h => h, ?_, ?_⟩
  · simp [loopStep, flushCheck_failed]
  · refine ⟨if rg then
        ({ movie_id := movie_id, details := some d, credits := f.credits,
           keywords := f.keywords, videos := f.videos, reviews := f.reviews,
           similar := f.similar, sources := none } : MovieData)
      else
        { movie_id := movie_id, details := some d, credits := f.credits,
          keywords := f.keywords, videos := f.videos, reviews := f.reviews,
          similar := f.similar, sources := some (ms movie_id) }, ?_, ?_, ?_⟩
    · cases rg <;> simp [loopStep, flushCheck_detailed]
    · cases rg <;> rfl
    · cases rg <;> rfl

/-- Witness for C6: base details and credits succeed, the reviews fetch
fails; the record has empty reviews and the item counts as a success. -/
theorem partial_enrichment_counts_success_witness :
    fetchC6.details = some (.jstr "Movie Title") ∧
    fetchC6.reviews = none ∧
    (crawl_movie_details none 7 fetchC6).reviews = none ∧
    (loopStep 25 1 false (fun _ => []) initLoopState 1 7
        (.returned (crawl_movie_details none 7 fetchC6))).failed_movies =
      initLoopState.failed_movies ∧
    ∃ md', (loopStep 25 1 false (fun _ => []) initLoopState 1 7
        (.returned (crawl_movie_details none 7 fetchC6))).detailed_movies =
          initLoopState.detailed_movies ++ [md'] ∧
      md'.details = some (.jstr "Movie Title") ∧ md'.reviews = none := by
  have h := partial_enrichment_counts_success 7 fetchC6 (.jstr "Movie Title")
    rfl 25 1 false (fun _ => []) initLoopState 1
  refine ⟨rfl, rfl, h.2.2.2.2.2.2.1 rfl, h.2.2.2.2.2.2.2.1, ?_⟩
  obtain ⟨md', h1, h2, h3⟩ := h.2.2.2.2.2.2.2.2
  exact ⟨md', h1, h2, h3.trans rfl⟩

/-- C10 counterexample: at a run whose discovery finds zero candidates,
the orchestrator does raise `ValueError` from the worker-pool
construction — but the consolidated dataset file has already been written
(with the pre-crawl header), so the claim's "no final summary or
consolidated file is written for that run" is false: the write log ends
with the `datasetHeader` write to the consolidated file's path. -/
theorem empty_candidates_header_already_written :
    (crawl_daily_netflix_data inpC10).1 = .error .valueError ∧
    (crawl_daily_netflix_data inpC10).2 =
      [.movieListSummary 0, .datasetHeader 0 (some ["popular"])] := by
  constructor
  · rfl
  · decide

/-- The selection phase writes at most the discovery summary. -/
theorem prepare_writes_shape (inp : CrawlInputs) :
    (prepare inp).writes = [] ∨
    ∃ k, (prepare inp).writes = [.movieListSummary k] := by
  unfold prepare
  split
  · exact .inl rfl
  · exact .inr ⟨_, rfl⟩

/-- C10 amended: with an empty candidate set the run computes
`min(max_workers, 0) = 0`, `ThreadPoolExecutor` rejects it and the run
raises `ValueError`; the final summary, batch files and failure file are
never written — but the consolidated dataset file has already been
created, holding the zero-count header. -/
theorem empty_candidates_raise_valueError (inp : CrawlInputs)
    (hsel : (prepare inp).selected_movies = []) :
    (crawl_daily_netflix_data inp).1 = .error .valueError ∧
    (crawl_daily_netflix_data inp).2 =
      (prepare inp).writes ++ [.datasetHeader 0 (headerSources inp)] ∧
    ∀ w ∈ (crawl_daily_netflix_data inp).2,
      (∀ a s fc ids, w ≠ .datasetFinal a s fc ids) ∧
      (∀ j ms, w ≠ .batchFile j ms) ∧
      (∀ ids, w ≠ .failedFile ids) := by
  have hmin : min inp.max_workers (prepare inp).selected_movies.length = 0 := by
    simp [hsel]
  have h1 : crawl_daily_netflix_data inp =
      (.error .valueError,
        (prepare inp).writes ++
          [.datasetHeader (prepare inp).selected_movies.length
            (headerSources inp)]) := by
    unfold crawl_daily_netflix_data
    rw [if_pos hmin]
  refine ⟨by rw [h1], by rw [h1, hsel]; rfl, ?_⟩
  intro w hw
  rw [h1] at hw
  simp only [List.mem_append, List.mem_singleton] at hw
  rcases hw with hw | hw
  · rcases prepare_writes_shape inp with hws | ⟨k, hws⟩
    · rw [hws] at hw
      simp at hw
    · rw [hws] at hw
      simp only [List.mem_singleton] at hw
      subst hw
      exact ⟨fun _ _ _ _ h => FileWrite.noConfusion h,
        fun _ _ h => FileWrite.noConfusion h,
        fun _ h => FileWrite.noConfusion h⟩
  · subst hw
    exact ⟨fun _ _ _ _ h => FileWrite.noConfusion h,
      fun _ _ h => FileWrite.noConfusion h,
      fun _ h => FileWrite.noConfusion h⟩

/-- Witness for the amended C10 at the concrete empty-discovery run. -/
theorem empty_candidates_raise_valueError_witness :
    (prepare inpC10).selected_movies = [] ∧
    ((crawl_daily_netflix_data inpC10).1 = .error .valueError ∧
      (crawl_daily_netflix_data inpC10).2 =
        (prepare inpC10).writes ++ [.datasetHeader 0 (headerSources inpC10)] ∧
      ∀ w ∈ (crawl_daily_netflix_data inpC10).2,
        (∀ a s fc ids, w ≠ .datasetFinal a s fc ids) ∧
        (∀ j ms, w ≠ .batchFile j ms) ∧
        (∀ ids, w ≠ .failedFile ids)) :=
  ⟨by decide, empty_candidates_raise_valueError inpC10 (by decide)⟩
